import Mathlib

/-!
Shallow embedding of the session/token lifecycle and RBAC engine of the
auth-authorization sample service (src/05.auth-authorization-system plus its
controllers/services), translated from the JavaScript source and the SQL
schema/trigger definitions.  Time is modelled in seconds as `Nat`; the
PostgreSQL store is modelled as Lean lists of rows; the Redis cache is an
association list of key/value pairs, or `disabled` when the `redis` handle is
falsy.  bcrypt/sha256 are opaque: password comparison and hashing are passed
in as function parameters, so theorems can quantify over them.
-/

namespace AuthSys

/-- Row of the `user_sessions` table (src/05 migrations: columns `id`,
`user_id`, `session_token`, `expires_at`, `is_active`, `is_remembered`,
`force_logout`; metadata columns that no claim reads are omitted). -/
structure Session where
  id : Nat
  user_id : Nat
  session_token : String
  expires_at : Nat
  is_active : Bool
  is_remembered : Bool
  force_logout : Bool
deriving DecidableEq, Repr

/-- Compact session record cached in Redis by `TokenService.createSession`
(tokenService.js lines 88-96): only `id`, `user_id`, `is_active` and
`expires_at` are serialised; in particular `force_logout` is not stored. -/
structure CachedSession where
  id : Nat
  user_id : Nat
  is_active : Bool
  expires_at : Nat
deriving DecidableEq, Repr

/-- Redis handle: `disabled` models a falsy `redis` (every `if (redis)` guard
skipped), `store` models a live cache as an association list keyed by the
`session:<token>` key (here just the token). -/
inductive Cache where
  | disabled : Cache
  | store (entries : List (String × CachedSession)) : Cache
deriving DecidableEq, Repr

/-- Cache read (`redis.get`). -/
def cacheGet : Cache → String → Option CachedSession
  | Cache.disabled, _ => none
  | Cache.store es, k => (es.find? fun e => e.1 == k).map (fun e => e.2)

/-- Cache write (`redis.setex`): overwrites the entry for the key. -/
def cacheSet : Cache → String → CachedSession → Cache
  | Cache.disabled, _, _ => Cache.disabled
  | Cache.store es, k, v => Cache.store ((k, v) :: es.filter fun e => !(e.1 == k))

/-- Mirror of a ledger row as a cache entry, as written by the
cache-repopulation branch of `findSessionByToken` (tokenService.js 137-141),
which serialises the row; only the fields the cache-hit check reads are kept. -/
def cacheEntryOf (s : Session) : CachedSession :=
  { id := s.id, user_id := s.user_id, is_active := s.is_active, expires_at := s.expires_at }

/-- Ledger query of `findSessionByToken` (tokenService.js 122-128):
`WHERE session_token = $1 AND is_active = TRUE AND expires_at >
CURRENT_TIMESTAMP AND force_logout = FALSE`. -/
def dbSessionQuery (rows : List Session) (now : Nat) (token : String) : Option Session :=
  rows.find? fun s =>
    s.session_token == token && s.is_active && decide (now < s.expires_at) && !s.force_logout

/-- Result of `findSessionByToken`: either the parsed cached record or the
ledger row. -/
inductive FoundSession where
  | cached (c : CachedSession) : FoundSession
  | ledger (s : Session) : FoundSession
deriving DecidableEq, Repr

/-- `TokenService.findSessionByToken` (tokenService.js 106-148): try the cache
first and trust a hit when `new Date(session.expires_at) > new Date() &&
session.is_active`; otherwise fall back to the ledger query and, on a hit,
repopulate the cache.  Returns the result together with the updated cache. -/
def findSessionByToken (rows : List Session) (c : Cache) (now : Nat) (token : String) :
    Option FoundSession × Cache :=
  let dbStep : Option FoundSession × Cache :=
    match dbSessionQuery rows now token with
    | none => (none, c)
    | some s => (some (FoundSession.ledger s), cacheSet c token (cacheEntryOf s))
  match cacheGet c token with
  | some e =>
      if decide (now < e.expires_at) && e.is_active then (some (FoundSession.cached e), c)
      else dbStep
  | none => dbStep

/-- Session row inserted by `TokenService.createSession` (tokenService.js
61-85): expiry is `now` plus 30 days when remembered, 1 day otherwise, and
the row starts active with `force_logout` at its FALSE default. -/
def mkSessionRow (now nextId uid : Nat) (tok : String) (remembered : Bool) : Session :=
  { id := nextId, user_id := uid, session_token := tok,
    expires_at := now + (if remembered then 24 * 30 else 24) * 3600,
    is_active := true, is_remembered := remembered, force_logout := false }

/-- `TokenService.createSession` (tokenService.js 49-103): insert the ledger
row, then, when the cache is live, write the compact record.  The whole body
sits in one `try` whose `catch` logs and rethrows, so a failing `setex`
(modelled by `cacheWriteFails`) propagates as an error to the caller even
though the `INSERT` has already been committed. -/
def createSession (rows : List Session) (c : Cache) (cacheWriteFails : Bool) (now nextId uid : Nat)
    (tok : String) (remembered : Bool) : Except Unit Session × List Session × Cache :=
  let s := mkSessionRow now nextId uid tok remembered
  let rows' := rows ++ [s]
  match c with
  | Cache.disabled => (Except.ok s, rows', Cache.disabled)
  | Cache.store es =>
      if cacheWriteFails then (Except.error (), rows', Cache.store es)
      else
        (Except.ok s, rows',
          cacheSet (Cache.store es) tok
            { id := s.id, user_id := s.user_id, is_active := true, expires_at := s.expires_at })

/-- `TokenService.invalidateAllUserSessions` (tokenService.js 227-253): first
select the tokens of the user's rows with `is_active = TRUE`, then set
`is_active = FALSE` on all of the user's rows, then delete exactly the
selected tokens from the cache. -/
def invalidateAllUserSessions (rows : List Session) (c : Cache) (uid : Nat) :
    List Session × Cache :=
  let activeTokens :=
    (rows.filter fun s => s.user_id == uid && s.is_active).map (fun s => s.session_token)
  let rows' := rows.map fun s =>
    if s.user_id == uid then { s with is_active := false } else s
  let c' := match c with
    | Cache.disabled => Cache.disabled
    | Cache.store es => Cache.store (es.filter fun e => !(activeTokens.contains e.1))
  (rows', c')

/-- Validity predicate of the spec: a session is valid iff `is_active`, not
`force_logout`, and `expires_at` in the future (spec section 3). -/
def sessionValidSpec (now : Nat) (s : Session) : Bool :=
  s.is_active && !s.force_logout && decide (now < s.expires_at)

/-- Row of the `users` table, keeping the columns the verified claims read
(`models/User.js` constructor / CREATE TABLE users). -/
structure UserRec where
  id : Nat
  email : String
  password_hash : String
  password_reset_token : Option String
  password_reset_expires : Option Nat
  failed_login_attempts : Nat
  account_locked_until : Option Nat
  last_login : Option Nat
  is_active : Bool
deriving DecidableEq, Repr

/-- The `check_account_lockout` trigger function (authentication.js companion
schema, lines 398-419), run BEFORE UPDATE on `users`: three cascaded `IF`
blocks on `NEW.failed_login_attempts` overwrite `NEW.account_locked_until`
with now + 30 minutes at 5, now + 1 hour at 10, now + 24 hours at 15. -/
def check_account_lockout (now : Nat) (u : UserRec) : UserRec :=
  let u1 := if 5 ≤ u.failed_login_attempts
    then { u with account_locked_until := some (now + 30 * 60) } else u
  let u2 := if 10 ≤ u1.failed_login_attempts
    then { u1 with account_locked_until := some (now + 60 * 60) } else u1
  if 15 ≤ u2.failed_login_attempts
    then { u2 with account_locked_until := some (now + 24 * 60 * 60) } else u2

/-- `User.incrementFailedLoginAttempts` (User.js 207-225): `UPDATE users SET
failed_login_attempts = failed_login_attempts + 1`; the BEFORE UPDATE trigger
then recomputes the lock from the incremented count. -/
def incrementFailedLoginAttempts (now : Nat) (u : UserRec) : UserRec :=
  check_account_lockout now { u with failed_login_attempts := u.failed_login_attempts + 1 }

/-- `User.resetFailedLoginAttempts` (User.js 228-246): `UPDATE users SET
failed_login_attempts = 0, account_locked_until = NULL, last_login = now`;
the trigger sees a zero count and leaves the cleared lock alone. -/
def resetFailedLoginAttempts (now : Nat) (u : UserRec) : UserRec :=
  check_account_lockout now
    { u with failed_login_attempts := 0, account_locked_until := none, last_login := some now }

/-- `User.isAccountLocked` (User.js 198-204): locked while `now` is strictly
before `account_locked_until`; an absent timestamp means unlocked. -/
def isAccountLocked (now : Nat) (u : UserRec) : Bool :=
  match u.account_locked_until with
  | none => false
  | some t => decide (now < t)

/-- Outcome of `User.verifyPassword`: `locked` is the thrown
`AccountLockedError`, `valid`/`invalid` the boolean returns. -/
inductive VerifyOutcome where
  | locked : VerifyOutcome
  | valid : VerifyOutcome
  | invalid : VerifyOutcome
deriving DecidableEq, Repr

/-- `User.verifyPassword` (User.js 168-196): throw `AccountLockedError` while
locked, before any call to `bcrypt.compare` (passed here as the opaque
`compare`); on match reset the counters, on mismatch increment them.  The
second component is the user's row after the call (unchanged when locked,
since the throw precedes every UPDATE). -/
def verifyPassword (compare : String → String → Bool) (now : Nat) (u : UserRec)
    (plain : String) : VerifyOutcome × UserRec :=
  if isAccountLocked now u then (VerifyOutcome.locked, u)
  else if compare plain u.password_hash then (VerifyOutcome.valid, resetFailedLoginAttempts now u)
  else (VerifyOutcome.invalid, incrementFailedLoginAttempts now u)

/-- Combined persistent state used by the `AuthService` flows: the `users`
table, the session ledger and the cache. -/
structure AuthDb where
  users : List UserRec
  sessions : List Session
  cache : Cache
deriving DecidableEq, Repr

/-- `User.verifyPasswordResetToken` (User.js 273-290): `SELECT * FROM users
WHERE password_reset_token = $1 AND password_reset_expires >
CURRENT_TIMESTAMP` (a NULL expiry compares false in SQL). -/
def verifyPasswordResetToken (users : List UserRec) (now : Nat) (token : String) :
    Option UserRec :=
  users.find? fun u =>
    u.password_reset_token == some token &&
      (match u.password_reset_expires with
        | none => false
        | some e => decide (now < e))

/-- `AuthService.resetPassword` (authService source, lines 294-331) composed
with `User.resetPassword` (User.js 293-330): look the user up by reset token;
on failure throw; otherwise rehash the password, clear the reset token and
the lockout counters on that user's row (the UPDATE passes through the
lockout trigger), then call `invalidateAllUserSessions` for the user. -/
def authResetPassword (hashFn : String → String) (now : Nat) (db : AuthDb)
    (token newPassword : String) : Except Unit Unit × AuthDb :=
  match verifyPasswordResetToken db.users now token with
  | none => (Except.error (), db)
  | some u =>
      let users' := db.users.map fun v =>
        if v.id == u.id then
          check_account_lockout now
            { v with password_hash := hashFn newPassword,
                     password_reset_token := none, password_reset_expires := none,
                     failed_login_attempts := 0, account_locked_until := none }
        else v
      let sc := invalidateAllUserSessions db.sessions db.cache u.id
      (Except.ok (), { users := users', sessions := sc.1, cache := sc.2 })

/-- Error taxonomy of `AuthService.changePassword`: `undefinedFunction` models
the `TypeError` raised by calling the nonexistent
`tokenService.findSessionByUserId`. -/
inductive ChangePasswordError where
  | userNotFound : ChangePasswordError
  | wrongCurrentPassword : ChangePasswordError
  | undefinedFunction : ChangePasswordError
deriving DecidableEq, Repr

/-- `AuthService.changePassword` (authService source, lines 425-481): find the
user, compare the current password directly with `bcrypt.compare`, persist the
new hash, then call `tokenService.findSessionByUserId(userId)` — a method that
`TokenService` (tokenService.js 6-338) never defines, so the call throws a
`TypeError` which the `catch` logs and rethrows.  The throw happens after the
password UPDATE and before `invalidateAllUserSessionsExcept`, so the hash is
already persisted and no session is touched. -/
def changePassword (compare : String → String → Bool) (hashFn : String → String) (now : Nat)
    (db : AuthDb) (userId : Nat) (currentPassword newPassword : String) :
    Except ChangePasswordError Unit × AuthDb :=
  match db.users.find? (fun u => u.id == userId) with
  | none => (Except.error ChangePasswordError.userNotFound, db)
  | some u =>
      if compare currentPassword u.password_hash then
        let users' := db.users.map fun v =>
          if v.id == userId then
            check_account_lockout now { v with password_hash := hashFn newPassword }
          else v
        (Except.error ChangePasswordError.undefinedFunction, { db with users := users' })
      else (Except.error ChangePasswordError.wrongCurrentPassword, db)

/-- Coherence of the cache with the ledger on the fields the code maintains:
every cache entry is keyed by the token of some ledger row and carries that
row's `is_active` flag.  The code's own write paths (creation, repopulation,
deletion on invalidation) preserve this. -/
def cacheCoherent (rows : List Session) (c : Cache) : Bool :=
  match c with
  | Cache.disabled => true
  | Cache.store es =>
      es.all fun e => rows.any fun s => s.session_token == e.1 && s.is_active == e.2.is_active

/-- Row of the `roles` table (Role.js constructor; description and audit
columns omitted). -/
structure RoleRow where
  id : Nat
  name : String
  is_system_role : Bool
  is_default : Bool
  parent_role_id : Option Nat
  level : Nat
deriving DecidableEq, Repr

/-- Row of the `permissions` table (name is the lookup key used by
`hasPermission`; resource/action/category omitted). -/
structure PermissionRow where
  id : Nat
  name : String
deriving DecidableEq, Repr

/-- Row of the `user_roles` junction table. -/
structure UserRoleRow where
  user_id : Nat
  role_id : Nat
  is_active : Bool
  expires_at : Option Nat
  assigned_by : Option Nat
deriving DecidableEq, Repr

/-- Row of the `role_permissions` junction table. -/
structure RolePermissionRow where
  role_id : Nat
  permission_id : Nat
  granted : Bool
deriving DecidableEq, Repr

/-- Effectiveness filter used by every RBAC query: `ur.is_active = TRUE AND
(ur.expires_at IS NULL OR ur.expires_at > CURRENT_TIMESTAMP)`. -/
def userRoleEffective (now : Nat) (ur : UserRoleRow) : Bool :=
  ur.is_active &&
    (match ur.expires_at with
      | none => true
      | some t => decide (now < t))

/-- `User.hasPermission` (User.js 405-423): `COUNT(*) > 0` over the join of
`permissions`, `role_permissions` and `user_roles` filtered by user id,
permission name, assignment effectiveness and `granted = TRUE`.  The `roles`
table (with `parent_role_id`/`level`) is not part of the join. -/
def hasPermission (perms : List PermissionRow) (rolePerms : List RolePermissionRow)
    (userRoles : List UserRoleRow) (now : Nat) (userId : Nat) (permissionName : String) : Bool :=
  perms.any fun p =>
    p.name == permissionName &&
      rolePerms.any fun rp =>
        rp.permission_id == p.id && rp.granted &&
          userRoles.any fun ur =>
            ur.role_id == rp.role_id && ur.user_id == userId && userRoleEffective now ur

/-- Key match of the `UNIQUE (user_id, role_id)` constraint that the
`ON CONFLICT` clause of `assignRole` targets. -/
def urMatches (uid rid : Nat) (ur : UserRoleRow) : Bool :=
  ur.user_id == uid && ur.role_id == rid

/-- The `INSERT ... ON CONFLICT (user_id, role_id) DO UPDATE SET is_active =
TRUE, assigned_by = $3, expires_at = $4` of `User.assignRole` (User.js
426-442): update the conflicting row when the unique pair exists, insert
otherwise. -/
def upsertUserRole (uid rid : Nat) (assignedBy expiresAt : Option Nat) :
    List UserRoleRow → List UserRoleRow
  | [] => [{ user_id := uid, role_id := rid, is_active := true,
             expires_at := expiresAt, assigned_by := assignedBy }]
  | ur :: rest =>
      if urMatches uid rid ur then
        { ur with is_active := true, assigned_by := assignedBy, expires_at := expiresAt } :: rest
      else ur :: upsertUserRole uid rid assignedBy expiresAt rest

/-- `User.assignRole` over the `user_roles` table. -/
def assignRole (userRoles : List UserRoleRow) (uid rid : Nat)
    (assignedBy expiresAt : Option Nat) : List UserRoleRow :=
  upsertUserRole uid rid assignedBy expiresAt userRoles

/-- Errors of the admin role mutations (`RoleController` and `Role`):
HTTP 404, the two 403 system-role rejections, the 409 name conflict, and the
thrown `Cannot delete role that is assigned to users`. -/
inductive RoleOpError where
  | notFound : RoleOpError
  | systemRole : RoleOpError
  | nameConflict : RoleOpError
  | hasAssignedUsers : RoleOpError
deriving DecidableEq, Repr

/-- The role update operation: `RoleController.updateRole` (controller source,
lines 151-241) wrapping `Role.update` (Role.js 157-201).  The controller
rejects a missing role, a system role, and a name clash with another role,
then `Role.update` writes the allowed fields. -/
def updateRole (roles : List RoleRow) (roleId : Nat) (newName : Option String)
    (newIsDefault : Option Bool) : Except RoleOpError (List RoleRow) :=
  match roles.find? (fun r => r.id == roleId) with
  | none => Except.error RoleOpError.notFound
  | some r =>
      if r.is_system_role then Except.error RoleOpError.systemRole
      else
        let nameClash := match newName with
          | some n => !(n == r.name) && (roles.any fun q => q.name == n)
          | none => false
        if nameClash then Except.error RoleOpError.nameConflict
        else
          Except.ok (roles.map fun q =>
            if q.id == roleId then
              { q with name := newName.getD q.name, is_default := newIsDefault.getD q.is_default }
            else q)

/-- The role delete operation: `RoleController.deleteRole` (controller source,
lines 244-310) wrapping `Role.delete` (Role.js 204-226).  After the not-found
and system-role rejections, `Role.delete` counts `user_roles WHERE role_id =
$1 AND is_active = TRUE` — with no expiry filter — and rejects when the count
is positive, otherwise deletes the role row. -/
def deleteRole (roles : List RoleRow) (userRoles : List UserRoleRow) (roleId : Nat) :
    Except RoleOpError (List RoleRow) :=
  match roles.find? (fun r => r.id == roleId) with
  | none => Except.error RoleOpError.notFound
  | some r =>
      if r.is_system_role then Except.error RoleOpError.systemRole
      else if 0 < (userRoles.filter fun ur => ur.role_id == roleId && ur.is_active).length then
        Except.error RoleOpError.hasAssignedUsers
      else Except.ok (roles.filter fun q => !(q.id == roleId))

/-- A valid, never force-logged-out session used by the C1 witness. -/
def demoSession : Session :=
  { id := 1, user_id := 1, session_token := "tok", expires_at := 100,
    is_active := true, is_remembered := false, force_logout := false }

/-- Demo tables for the C7 witness: one system role, one plain role with an
active assignment, one plain role with only an inactive assignment. -/
def demoRoles : List RoleRow :=
  [⟨1, "Custom", false, false, none, 0⟩, ⟨2, "Admin", true, false, none, 0⟩,
   ⟨3, "Spare", false, false, none, 0⟩]

/-- Demo user-role table for the C7 witness. -/
def demoRoleURs : List UserRoleRow :=
  [⟨7, 1, true, none, none⟩, ⟨7, 3, false, none, none⟩]

/-- A hierarchy root for the C5 inheritance check. -/
def parentRole : RoleRow := ⟨1, "Parent", false, false, none, 0⟩

/-- A child of `parentRole` (hierarchy depth 1). -/
def childRole : RoleRow := ⟨2, "Child", false, false, some 1, 1⟩

/-- Permission table for the C5 inheritance check. -/
def demoPermsH : List PermissionRow := [⟨1, "content.read"⟩]

/-- Grant edge attached to the parent role only. -/
def demoRolePermsH : List RolePermissionRow := [⟨parentRole.id, 1, true⟩]

/-- The user holds only the child role, actively and without expiry. -/
def demoUserRolesH : List UserRoleRow := [⟨7, childRole.id, true, none, none⟩]

/-- A user row fresh from registration: zero failed attempts, no lock. -/
def freshUser : UserRec :=
  { id := 1, email := "user@example.com", password_hash := "H", password_reset_token := none,
    password_reset_expires := none, failed_login_attempts := 0, account_locked_until := none,
    last_login := none, is_active := true }

/-- One failed login attempt: `verifyPassword` with a comparison that rejects. -/
def wrongAttempt (now : Nat) (u : UserRec) : UserRec :=
  (verifyPassword (fun _ _ => false) now u "wrong").2

/-- A user row sitting inside an active lock window. -/
def demoLockedUser : UserRec :=
  { id := 2, email := "locked@example.com", password_hash := "H", password_reset_token := none,
    password_reset_expires := none, failed_login_attempts := 7,
    account_locked_until := some 100, last_login := none, is_active := true }

/-- A user holding a stored, unexpired password reset token, for the C3
witness. -/
def resetUser : UserRec :=
  { id := 1, email := "reset@example.com", password_hash := "H",
    password_reset_token := some "rt", password_reset_expires := some 100,
    failed_login_attempts := 3, account_locked_until := none, last_login := none,
    is_active := true }

/-- Demo database for the C3 witness: the reset user owns one active and one
already-inactive session, both mirrored coherently in the cache. -/
def resetDb : AuthDb :=
  { users := [resetUser],
    sessions := [⟨1, 1, "tokA", 100, true, false, false⟩,
                 ⟨2, 1, "tokB", 100, false, false, false⟩],
    cache := Cache.store [("tokA", ⟨1, 1, true, 100⟩), ("tokB", ⟨2, 1, false, 100⟩)] }

/-- Helper: the lockout trigger touches only `account_locked_until`. -/
theorem check_account_lockout_frame (now : Nat) (w : UserRec) :
    (check_account_lockout now w).id = w.id
  ∧ (check_account_lockout now w).password_hash = w.password_hash
  ∧ (check_account_lockout now w).password_reset_token = w.password_reset_token
  ∧ (check_account_lockout now w).failed_login_attempts = w.failed_login_attempts := by
  unfold check_account_lockout
  dsimp only
  split_ifs <;> simp

/-- Helper: `findSessionByToken` returns null when the ledger query misses and
no trusted cache hit exists. -/
theorem findSessionByToken_eq_none (rows : List Session) (c : Cache) (now : Nat) (token : String)
    (hdb : dbSessionQuery rows now token = none)
    (hc : ∀ e, cacheGet c token = some e →
      (decide (now < e.expires_at) && e.is_active) = false) :
    (findSessionByToken rows c now token).1 = none := by
  unfold findSessionByToken
  cases hce : cacheGet c token with
  | none => simp [hdb]
  | some e => simp [hdb, hc e hce]

/-- C2: crossing 5 failed attempts locks for 30 minutes, crossing 10 for 1
hour, crossing 15 for 24 hours; an increment that lands below 5 changes only
the counter; a successful authentication resets the counter to 0, clears the
lock and stamps `last_login`, regardless of the current count. -/
theorem lockout_escalation_and_reset (now : Nat) (u : UserRec) :
    incrementFailedLoginAttempts now { u with failed_login_attempts := 4 }
      = { u with failed_login_attempts := 5, account_locked_until := some (now + 30 * 60) }
  ∧ incrementFailedLoginAttempts now { u with failed_login_attempts := 9 }
      = { u with failed_login_attempts := 10, account_locked_until := some (now + 60 * 60) }
  ∧ incrementFailedLoginAttempts now { u with failed_login_attempts := 14 }
      = { u with failed_login_attempts := 15, account_locked_until := some (now + 24 * 60 * 60) }
  ∧ incrementFailedLoginAttempts now { u with failed_login_attempts := 0 }
      = { u with failed_login_attempts := 1 }
  ∧ incrementFailedLoginAttempts now { u with failed_login_attempts := 1 }
      = { u with failed_login_attempts := 2 }
  ∧ incrementFailedLoginAttempts now { u with failed_login_attempts := 2 }
      = { u with failed_login_attempts := 3 }
  ∧ incrementFailedLoginAttempts now { u with failed_login_attempts := 3 }
      = { u with failed_login_attempts := 4 }
  ∧ resetFailedLoginAttempts now u
      = { u with failed_login_attempts := 0, account_locked_until := none,
                 last_login := some now } := by
  refine ⟨?_, ?_, ?_, ?_, ?_, ?_, ?_, ?_⟩ <;>
    simp [incrementFailedLoginAttempts, resetFailedLoginAttempts, check_account_lockout]

/-- C4: while the account is locked, `verifyPassword` raises the locked error
for every password comparison function — in particular for one that would
accept the supplied password — so the hash comparison never decides the
outcome. -/
theorem verifyPassword_locked_fails_fast (compare : String → String → Bool) (now : Nat)
    (u : UserRec) (plain : String) (h : isAccountLocked now u = true) :
    (verifyPassword compare now u plain).1 = VerifyOutcome.locked := by
  simp [verifyPassword, h]

/-- Witness for C4: the spec scenario — a fresh registration, five failed
attempts, then a sixth attempt with the correct password inside the lock
window is rejected as locked. -/
theorem verifyPassword_locked_fails_fast_witness :
    isAccountLocked 60
      (wrongAttempt 0 (wrongAttempt 0 (wrongAttempt 0 (wrongAttempt 0
        (wrongAttempt 0 freshUser))))) = true
  ∧ (verifyPassword (fun _ _ => true) 60
      (wrongAttempt 0 (wrongAttempt 0 (wrongAttempt 0 (wrongAttempt 0
        (wrongAttempt 0 freshUser))))) "correct-password").1 = VerifyOutcome.locked :=
  ⟨by decide, verifyPassword_locked_fails_fast (fun _ _ => true) 60 _ "correct-password"
    (by decide)⟩

/-- C10: while the account is locked, `verifyPassword` leaves the failure
counter and the lock timestamp untouched, for every comparison function. -/
theorem verifyPassword_locked_frame (compare : String → String → Bool) (now : Nat)
    (u : UserRec) (plain : String) (h : isAccountLocked now u = true) :
    ((verifyPassword compare now u plain).2).failed_login_attempts = u.failed_login_attempts
  ∧ ((verifyPassword compare now u plain).2).account_locked_until
      = u.account_locked_until := by
  simp [verifyPassword, h]

/-- Witness for C10: a locked user at attempt count 7 keeps count 7 and the
same lock timestamp after another attempt. -/
theorem verifyPassword_locked_frame_witness :
    isAccountLocked 50 demoLockedUser = true
  ∧ ((verifyPassword (fun _ _ => true) 50 demoLockedUser "pw").2).failed_login_attempts
      = demoLockedUser.failed_login_attempts
  ∧ ((verifyPassword (fun _ _ => true) 50 demoLockedUser "pw").2).account_locked_until
      = demoLockedUser.account_locked_until :=
  ⟨by decide, verifyPassword_locked_frame (fun _ _ => true) 50 demoLockedUser "pw" (by decide)⟩

/-- Counterexample for C6: with a live cache whose write fails, the concrete
`createSession` call returns an error to the caller — session creation fails —
even though the ledger row was inserted. -/
theorem createSession_cache_failure_counterexample :
    (createSession [] (Cache.store []) true 0 1 7 "tok" false).1 = Except.error ()
  ∧ (createSession [] (Cache.store []) true 0 1 7 "tok" false).2.1
      = [mkSessionRow 0 1 7 "tok" false] := by
  exact ⟨rfl, rfl⟩

/-- C6 as amended: a cache-write failure in `createSession` is rethrown to the
caller after the ledger insert has already happened (the row remains and the
cache is unchanged); when the cache write succeeds or the cache is disabled,
the created session is returned. -/
theorem createSession_cache_failure_surfaces (rows : List Session)
    (es : List (String × CachedSession)) (now nextId uid : Nat) (tok : String)
    (remembered : Bool) :
    (createSession rows (Cache.store es) true now nextId uid tok remembered).1
      = Except.error ()
  ∧ (createSession rows (Cache.store es) true now nextId uid tok remembered).2.1
      = rows ++ [mkSessionRow now nextId uid tok remembered]
  ∧ (createSession rows (Cache.store es) true now nextId uid tok remembered).2.2
      = Cache.store es
  ∧ ∀ c : Cache, (createSession rows c false now nextId uid tok remembered).1
      = Except.ok (mkSessionRow now nextId uid tok remembered) := by
  refine ⟨rfl, rfl, rfl, ?_⟩
  intro c
  cases c <;> rfl

/-- Counterexample for C1: a session that is active and unexpired but
force-logged-out is returned by `findSessionByToken` when the cache holds its
mirror entry, although the session is not valid — the cache-hit check reads
only `expires_at` and `is_active`, never `force_logout`, so the cache-hit and
ledger paths disagree. -/
theorem findSessionByToken_equiv_counterexample :
    ((findSessionByToken [⟨1, 1, "tok", 100, true, false, true⟩]
        (Cache.store [("tok", cacheEntryOf ⟨1, 1, "tok", 100, true, false, true⟩)])
        0 "tok").1).isSome = true
  ∧ sessionValidSpec 0 ⟨1, 1, "tok", 100, true, false, true⟩ = false
  ∧ ((findSessionByToken [⟨1, 1, "tok", 100, true, false, true⟩]
        (Cache.store []) 0 "tok").1).isSome = false := by
  decide

/-- C1 as amended: with the cache disabled or empty, `findSessionByToken`
grants exactly the spec-valid sessions; with the cache populated with the
session's mirror entry the same equivalence holds only for sessions with
`force_logout = false`, because the cache-hit check does not consult
`force_logout`. -/
theorem findSessionByToken_equiv (s : Session) (now : Nat) :
    ((findSessionByToken [s] Cache.disabled now s.session_token).1.isSome
        = sessionValidSpec now s)
  ∧ ((findSessionByToken [s] (Cache.store []) now s.session_token).1.isSome
        = sessionValidSpec now s)
  ∧ (s.force_logout = false →
      (findSessionByToken [s]
          (Cache.store [(s.session_token, cacheEntryOf s)]) now s.session_token).1.isSome
        = sessionValidSpec now s) := by
  obtain ⟨id, uid, tok, exp, act, rem, fl⟩ := s
  refine ⟨?_, ?_, ?_⟩ <;>
  · first
    | (intro hfl
       subst hfl
       cases act <;> by_cases h : now < exp <;>
         simp [findSessionByToken, dbSessionQuery, cacheGet, cacheEntryOf, cacheSet,
           sessionValidSpec, h])
    | (cases act <;> cases fl <;> by_cases h : now < exp <;>
         simp [findSessionByToken, dbSessionQuery, cacheGet, cacheEntryOf, cacheSet,
           sessionValidSpec, h])

/-- Witness for C1 (amended): the populated-cache equivalence instantiated at
a concrete session with `force_logout = false`. -/
theorem findSessionByToken_equiv_witness :
    demoSession.force_logout = false
  ∧ ((findSessionByToken [demoSession]
        (Cache.store [(demoSession.session_token, cacheEntryOf demoSession)])
        0 demoSession.session_token).1.isSome = sessionValidSpec 0 demoSession) :=
  ⟨by decide, (findSessionByToken_equiv demoSession 0).2.2 (by decide)⟩

/-- Counterexample for C7: a non-system role whose single user assignment is
active but expired (`expires_at = 5`, checked at `now = 10`) has no
currently-effective assignment, yet `deleteRole` still rejects — the guard
counts `is_active = TRUE` rows without any expiry filter. -/
theorem roleMutation_guards_counterexample :
    deleteRole [⟨1, "Custom", false, false, none, 0⟩] [⟨7, 1, true, some 5, none⟩] 1
      = Except.error RoleOpError.hasAssignedUsers
  ∧ ([(⟨7, 1, true, some 5, none⟩ : UserRoleRow)].all
      fun ur => !(userRoleEffective 10 ur)) = true :=
  ⟨rfl, by decide⟩

/-- C7 as amended: update and delete both reject a system role; for a
non-system role, delete rejects exactly when some `user_roles` row for the
role has `is_active = true` — regardless of `expires_at` — and otherwise
deletes the role row. -/
theorem roleMutation_guards (roles : List RoleRow) (userRoles : List UserRoleRow)
    (rid : Nat) (r : RoleRow) (nn : Option String) (nd : Option Bool)
    (hfind : roles.find? (fun q => q.id == rid) = some r) :
    (r.is_system_role = true →
      updateRole roles rid nn nd = Except.error RoleOpError.systemRole
      ∧ deleteRole roles userRoles rid = Except.error RoleOpError.systemRole)
  ∧ (r.is_system_role = false →
      ((∃ ur ∈ userRoles, ur.role_id = rid ∧ ur.is_active = true) →
        deleteRole roles userRoles rid = Except.error RoleOpError.hasAssignedUsers)
      ∧ ((∀ ur ∈ userRoles, ur.role_id = rid → ur.is_active = false) →
        deleteRole roles userRoles rid
          = Except.ok (roles.filter fun q => !(q.id == rid)))) := by
  constructor
  · intro hsys
    constructor
    · unfold updateRole
      rw [hfind]
      simp [hsys]
    · unfold deleteRole
      rw [hfind]
      simp [hsys]
  · intro hsys
    constructor
    · rintro ⟨ur, hmem, hrid, hact⟩
      unfold deleteRole
      rw [hfind]
      have hpos : 0 < (userRoles.filter fun x => x.role_id == rid && x.is_active).length := by
        have : ur ∈ userRoles.filter fun x => x.role_id == rid && x.is_active := by
          rw [List.mem_filter]
          exact ⟨hmem, by simp [hrid, hact]⟩
        exact List.length_pos.mpr (List.ne_nil_of_mem this)
      simp [hsys, hpos]
    · intro hall
      unfold deleteRole
      rw [hfind]
      have hnil : (userRoles.filter fun x => x.role_id == rid && x.is_active) = [] := by
        rw [List.filter_eq_nil_iff]
        intro x hx
        by_cases hxr : x.role_id = rid
        · simp [hxr, hall x hx hxr]
        · simp [hxr]
      simp [hsys, hnil]

/-- Witness for C7 (amended): instantiated at the system role of the demo
tables. -/
theorem roleMutation_guards_witness :
    ((⟨2, "Admin", true, false, none, 0⟩ : RoleRow).is_system_role = true →
      updateRole demoRoles 2 none none = Except.error RoleOpError.systemRole
      ∧ deleteRole demoRoles demoRoleURs 2 = Except.error RoleOpError.systemRole)
  ∧ ((⟨2, "Admin", true, false, none, 0⟩ : RoleRow).is_system_role = false →
      ((∃ ur ∈ demoRoleURs, ur.role_id = 2 ∧ ur.is_active = true) →
        deleteRole demoRoles demoRoleURs 2 = Except.error RoleOpError.hasAssignedUsers)
      ∧ ((∀ ur ∈ demoRoleURs, ur.role_id = 2 → ur.is_active = false) →
        deleteRole demoRoles demoRoleURs 2
          = Except.ok (demoRoles.filter fun q => !(q.id == 2)))) :=
  roleMutation_guards demoRoles demoRoleURs 2 ⟨2, "Admin", true, false, none, 0⟩ none none
    (by decide)

/-- C5: `hasPermission` is true exactly when some active, unexpired UserRole
assignment of the user reaches the named permission through a `granted = true`
RolePermission edge; and, since the join never touches the `roles` table, a
user holding only `childRole` does not receive the permission granted to its
parent `parentRole`. -/
theorem hasPermission_iff (perms : List PermissionRow) (rolePerms : List RolePermissionRow)
    (userRoles : List UserRoleRow) (now userId : Nat) (pname : String) :
    (hasPermission perms rolePerms userRoles now userId pname = true
      ↔ ∃ ur ∈ userRoles, ur.user_id = userId ∧ userRoleEffective now ur = true
          ∧ ∃ rp ∈ rolePerms, rp.role_id = ur.role_id ∧ rp.granted = true
              ∧ ∃ p ∈ perms, p.id = rp.permission_id ∧ p.name = pname)
  ∧ (childRole.parent_role_id = some parentRole.id
     ∧ hasPermission demoPermsH demoRolePermsH demoUserRolesH 0 7 "content.read" = false) := by
  constructor
  · constructor
    · intro hcode
      unfold hasPermission at hcode
      obtain ⟨p, hp, h1⟩ := List.any_eq_true.mp hcode
      obtain ⟨hpname, hany1⟩ := Bool.and_eq_true_iff.mp h1
      obtain ⟨rp, hrp, h2⟩ := List.any_eq_true.mp hany1
      obtain ⟨h3, hany2⟩ := Bool.and_eq_true_iff.mp h2
      obtain ⟨hpid, hgr⟩ := Bool.and_eq_true_iff.mp h3
      obtain ⟨ur, hur, h4⟩ := List.any_eq_true.mp hany2
      obtain ⟨h5, heff⟩ := Bool.and_eq_true_iff.mp h4
      obtain ⟨hrole, huid⟩ := Bool.and_eq_true_iff.mp h5
      exact ⟨ur, hur, beq_iff_eq.mp huid, heff, rp, hrp, (beq_iff_eq.mp hrole).symm, hgr,
        p, hp, (beq_iff_eq.mp hpid).symm, beq_iff_eq.mp hpname⟩
    · rintro ⟨ur, hur, huid, heff, rp, hrp, hrole, hgr, p, hp, hpid, hpname⟩
      unfold hasPermission
      refine List.any_eq_true.mpr ⟨p, hp, ?_⟩
      refine Bool.and_eq_true_iff.mpr ⟨beq_iff_eq.mpr hpname, ?_⟩
      refine List.any_eq_true.mpr ⟨rp, hrp, ?_⟩
      refine Bool.and_eq_true_iff.mpr
        ⟨Bool.and_eq_true_iff.mpr ⟨beq_iff_eq.mpr hpid.symm, hgr⟩, ?_⟩
      refine List.any_eq_true.mpr ⟨ur, hur, ?_⟩
      exact Bool.and_eq_true_iff.mpr
        ⟨Bool.and_eq_true_iff.mpr ⟨beq_iff_eq.mpr hrole.symm, beq_iff_eq.mpr huid⟩, heff⟩
  · exact ⟨by decide, by decide⟩

/-- Helper for C8: under the unique-pair constraint, the upsert leaves exactly
one row for the (user, role) pair, fully determined by the call's arguments. -/
theorem upsertUserRole_filter (uid rid : Nat) (b e : Option Nat) (l : List UserRoleRow)
    (h : (l.filter (urMatches uid rid)).length ≤ 1) :
    (upsertUserRole uid rid b e l).filter (urMatches uid rid)
      = [{ user_id := uid, role_id := rid, is_active := true,
           expires_at := e, assigned_by := b }] := by
  induction l with
  | nil => simp [upsertUserRole, urMatches]
  | cons ur rest ih =>
    rw [List.filter_cons] at h
    by_cases hm : urMatches uid rid ur = true
    · rw [if_pos hm] at h
      simp only [List.length_cons] at h
      have hrest : rest.filter (urMatches uid rid) = [] :=
        List.length_eq_zero.mp (by omega)
      obtain ⟨u1, r1, a1, x1, b1⟩ := ur
      obtain ⟨huid, hrid⟩ : u1 = uid ∧ r1 = rid := by simpa [urMatches] using hm
      subst huid
      subst hrid
      simp [upsertUserRole, urMatches, List.filter_cons, hrest]
    · rw [if_neg hm] at h
      have hm' : urMatches uid rid ur = false := by simpa using hm
      simp only [upsertUserRole, hm', Bool.false_eq_true, if_false, List.filter_cons]
      exact ih h

/-- C8: two `assignRole` calls for the same (user, role) pair leave exactly
one row for the pair, active, carrying the second call's `expires_at` (and
`assigned_by`), given the table respects the unique-pair constraint. -/
theorem assignRole_idempotent (l : List UserRoleRow) (uid rid : Nat) (b e1 e2 : Option Nat)
    (h : (l.filter (urMatches uid rid)).length ≤ 1) :
    (assignRole (assignRole l uid rid b e1) uid rid b e2).filter (urMatches uid rid)
      = [{ user_id := uid, role_id := rid, is_active := true,
           expires_at := e2, assigned_by := b }] := by
  have h1 : (assignRole l uid rid b e1).filter (urMatches uid rid)
      = [{ user_id := uid, role_id := rid, is_active := true,
           expires_at := e1, assigned_by := b }] :=
    upsertUserRole_filter uid rid b e1 l h
  have h2 : ((assignRole l uid rid b e1).filter (urMatches uid rid)).length ≤ 1 := by
    rw [h1]
    simp
  exact upsertUserRole_filter uid rid b e2 _ h2

/-- Witness for C8: re-assigning role 3 to user 7 over an inactive expired
assignment, with two different expiries, leaves a single active row carrying
the second expiry. -/
theorem assignRole_idempotent_witness :
    (([⟨7, 3, false, some 50, none⟩] : List UserRoleRow).filter (urMatches 7 3)).length ≤ 1
  ∧ (assignRole (assignRole [⟨7, 3, false, some 50, none⟩] 7 3 (some 9) (some 100))
        7 3 (some 9) (some 200)).filter (urMatches 7 3)
      = [{ user_id := 7, role_id := 3, is_active := true,
           expires_at := some 200, assigned_by := some 9 }] :=
  ⟨by decide, assignRole_idempotent [⟨7, 3, false, some 50, none⟩] 7 3 (some 9)
    (some 100) (some 200) (by decide)⟩

/-- C9: for a found user and a correct current password, `changePassword`
always returns the error modelling the `TypeError` from the missing
`tokenService.findSessionByUserId`, yet the new password hash is already
persisted on the user's row, and neither the session ledger nor the cache is
touched (no session is invalidated). -/
theorem changePassword_throws_after_persisting
    (compare : String → String → Bool) (hashFn : String → String) (now : Nat)
    (db : AuthDb) (userId : Nat) (cur new : String) (u : UserRec)
    (hfind : db.users.find? (fun v => v.id == userId) = some u)
    (hcmp : compare cur u.password_hash = true) :
    (changePassword compare hashFn now db userId cur new).1
      = Except.error ChangePasswordError.undefinedFunction
  ∧ (changePassword compare hashFn now db userId cur new).2.sessions = db.sessions
  ∧ (changePassword compare hashFn now db userId cur new).2.cache = db.cache
  ∧ ∃ v ∈ (changePassword compare hashFn now db userId cur new).2.users,
      v.id = userId ∧ v.password_hash = hashFn new := by
  have hid : u.id = userId := by
    have := List.find?_some hfind
    simpa using this
  have hmem : u ∈ db.users := List.mem_of_find?_eq_some hfind
  simp only [changePassword, hfind, hcmp, if_true]
  refine ⟨trivial, trivial, trivial, ?_⟩
  refine ⟨check_account_lockout now { u with password_hash := hashFn new }, ?_, ?_, ?_⟩
  · have hmap := List.mem_map_of_mem
      (fun v => if v.id == userId then
        check_account_lockout now { v with password_hash := hashFn new } else v) hmem
    simpa [hid] using hmap
  · rw [(check_account_lockout_frame now _).1]
    exact hid
  · exact (check_account_lockout_frame now _).2.1

/-- Demo database for the C9 witness. -/
def demoChangeDb : AuthDb :=
  { users := [freshUser],
    sessions := [demoSession],
    cache := Cache.store [("tok", cacheEntryOf demoSession)] }

/-- Witness for C9: a concrete user supplying the correct current password
receives the undefined-function error while the hash is already replaced. -/
theorem changePassword_throws_after_persisting_witness :
    (changePassword (fun a b => a == b) (fun p => String.append "hash:" p) 0
        demoChangeDb 1 "H" "NewPw").1
      = Except.error ChangePasswordError.undefinedFunction
  ∧ (changePassword (fun a b => a == b) (fun p => String.append "hash:" p) 0
        demoChangeDb 1 "H" "NewPw").2.sessions = demoChangeDb.sessions
  ∧ (changePassword (fun a b => a == b) (fun p => String.append "hash:" p) 0
        demoChangeDb 1 "H" "NewPw").2.cache = demoChangeDb.cache
  ∧ ∃ v ∈ (changePassword (fun a b => a == b) (fun p => String.append "hash:" p) 0
        demoChangeDb 1 "H" "NewPw").2.users,
      v.id = 1 ∧ v.password_hash = String.append "hash:" "NewPw" :=
  changePassword_throws_after_persisting (fun a b => a == b)
    (fun p => String.append "hash:" p) 0 demoChangeDb 1 "H" "NewPw" freshUser
    (by decide) (by decide)

/-- Helper for C3: after `invalidateAllUserSessions`, every session of the
user yields null from `findSessionByToken`, given a coherent cache and unique
session tokens. -/
theorem invalidateAll_findNone (rows : List Session) (c : Cache) (uid now : Nat)
    (hcoh : cacheCoherent rows c = true)
    (htok : (rows.map Session.session_token).Nodup)
    (s : Session) (hs : s ∈ rows) (hsu : s.user_id = uid) :
    (findSessionByToken (invalidateAllUserSessions rows c uid).1
      (invalidateAllUserSessions rows c uid).2 now s.session_token).1 = none := by
  have hinj := List.inj_on_of_nodup_map htok
  apply findSessionByToken_eq_none
  · unfold dbSessionQuery invalidateAllUserSessions
    rw [List.find?_eq_none]
    intro t ht
    obtain ⟨t0, ht0, rfl⟩ := List.mem_map.mp ht
    by_cases hu : t0.user_id = uid
    · simp [hu]
    · rw [if_neg (by simpa using hu)]
      intro hpred
      obtain ⟨h1, _⟩ := Bool.and_eq_true_iff.mp hpred
      obtain ⟨h2, _⟩ := Bool.and_eq_true_iff.mp h1
      obtain ⟨h3, _⟩ := Bool.and_eq_true_iff.mp h2
      exact hu (by rw [hinj ht0 hs (beq_iff_eq.mp h3)]; exact hsu)
  · intro e hce
    cases c with
    | disabled =>
        exact absurd hce (by simp [invalidateAllUserSessions, cacheGet])
    | store es =>
        simp only [invalidateAllUserSessions, cacheGet] at hce
        obtain ⟨pr, hprfind, hpr2⟩ := Option.map_eq_some'.mp hce
        have hprkey := List.find?_some hprfind
        have hprmem := List.mem_of_find?_eq_some hprfind
        rw [List.mem_filter] at hprmem
        obtain ⟨hpres, hprkeep⟩ := hprmem
        have hkey : pr.1 = s.session_token := beq_iff_eq.mp hprkey
        unfold cacheCoherent at hcoh
        have hrow := List.all_eq_true.mp hcoh pr hpres
        obtain ⟨srow, hsrowmem, hsrowpred⟩ := List.any_eq_true.mp hrow
        obtain ⟨hsrowtok, hsrowact⟩ := Bool.and_eq_true_iff.mp hsrowpred
        have hsrow_eq : srow = s := by
          apply hinj hsrowmem hs
          rw [beq_iff_eq.mp hsrowtok, hkey]
        have hact : s.is_active = e.is_active := by
          rw [← hsrow_eq, ← hpr2]
          exact (beq_iff_eq.mp hsrowact).symm ▸ rfl
        by_cases hsact : s.is_active = true
        · exfalso
          have hints : s.session_token ∈
              ((rows.filter fun x => x.user_id == uid && x.is_active).map
                (fun x => x.session_token)) := by
            refine List.mem_map_of_mem _ ?_
            rw [List.mem_filter]
            exact ⟨hs, by simp [hsu, hsact]⟩
          have : ((rows.filter fun x => x.user_id == uid && x.is_active).map
              (fun x => x.session_token)).contains pr.1 = true := by
            rw [hkey]
            exact List.elem_eq_true_of_mem hints
          rw [this] at hprkeep
          simp at hprkeep
        · have : e.is_active = false := by
            rw [← hact]
            exact Bool.not_eq_true _ ▸ (by simpa using hsact)
          simp [this]

/-- C3: consuming a valid reset token succeeds, afterwards every pre-existing
session of that user yields null from `findSessionByToken`, and a second
`resetPassword` with the same token fails — the token cannot be consumed
twice.  Hypotheses: the token is stored and unexpired for `u`, no other user
row holds the token, the cache mirrors the ledger's `is_active` flags, and
session tokens are unique (the table's UNIQUE constraint). -/
theorem resetPassword_invalidates_and_single_use
    (hashFn : String → String) (now : Nat) (db : AuthDb) (token newPassword : String)
    (u : UserRec)
    (hu : verifyPasswordResetToken db.users now token = some u)
    (huniq : ∀ v ∈ db.users, v.password_reset_token = some token → v.id = u.id)
    (hcoh : cacheCoherent db.sessions db.cache = true)
    (htok : (db.sessions.map Session.session_token).Nodup) :
    (authResetPassword hashFn now db token newPassword).1 = Except.ok ()
  ∧ (∀ s ∈ db.sessions, s.user_id = u.id →
      (findSessionByToken (authResetPassword hashFn now db token newPassword).2.sessions
        (authResetPassword hashFn now db token newPassword).2.cache now
        s.session_token).1 = none)
  ∧ (authResetPassword hashFn now
      (authResetPassword hashFn now db token newPassword).2 token newPassword).1
      = Except.error () := by
  refine ⟨?_, ?_, ?_⟩
  · simp only [authResetPassword, hu]
  · intro s hs hsu
    simp only [authResetPassword, hu]
    exact invalidateAll_findNone db.sessions db.cache u.id now hcoh htok s hs hsu
  · have hnone : verifyPasswordResetToken
        ((authResetPassword hashFn now db token newPassword).2.users) now token = none := by
      simp only [authResetPassword, hu]
      unfold verifyPasswordResetToken
      rw [List.find?_eq_none]
      intro v' hv'
      obtain ⟨v, hv, rfl⟩ := List.mem_map.mp hv'
      by_cases hid : v.id = u.id
      · rw [if_pos (by simpa using hid)]
        intro hpred
        obtain ⟨h1, _⟩ := Bool.and_eq_true_iff.mp hpred
        rw [(check_account_lockout_frame now _).2.2.1] at h1
        simp at h1
      · rw [if_neg (by simpa using hid)]
        intro hpred
        obtain ⟨h1, _⟩ := Bool.and_eq_true_iff.mp hpred
        exact hid (huniq v hv (beq_iff_eq.mp h1))
    simp only [authResetPassword, hu] at hnone
    simp only [authResetPassword, hu, hnone]

/-- Witness for C3: the concrete reset database — reset succeeds, both
pre-existing session tokens are rejected afterwards, and the second
consumption of the token errors. -/
theorem resetPassword_invalidates_and_single_use_witness :
    (authResetPassword (fun p => String.append "h:" p) 0 resetDb "rt" "NewPw").1
      = Except.ok ()
  ∧ (∀ s ∈ resetDb.sessions, s.user_id = resetUser.id →
      (findSessionByToken
        (authResetPassword (fun p => String.append "h:" p) 0 resetDb "rt" "NewPw").2.sessions
        (authResetPassword (fun p => String.append "h:" p) 0 resetDb "rt" "NewPw").2.cache 0
        s.session_token).1 = none)
  ∧ (authResetPassword (fun p => String.append "h:" p) 0
      (authResetPassword (fun p => String.append "h:" p) 0 resetDb "rt" "NewPw").2
      "rt" "NewPw").1 = Except.error () :=
  resetPassword_invalidates_and_single_use (fun p => String.append "h:" p) 0 resetDb
    "rt" "NewPw" resetUser (by decide) (by decide) (by decide) (by decide)

end AuthSys
